import Mathlib

/-!
Verification of the edalize backend layer (Vivado, VUnit, ALINT-PRO backends)
against its natural-language specification.  The Python sources are shallowly
embedded: each backend's `configure_main` / `run_main` becomes a pure Lean
function over explicit records for source files, tool options and backend
identity.  Logging is modelled by returning the list of warning messages,
exceptions by `Except`, and written files by fields of an output record.
-/

namespace Edalize

/-- Models Python `s.split('-')[0]`: the prefix of `s` up to (excluding) the
first `'-'` character, or all of `s` when there is none. -/
def normTag (s : String) : String := String.mk (s.data.takeWhile (fun c => c ≠ '-'))

/-- Models the Python substring test `needle in hay`. -/
def strContains (hay needle : String) : Bool :=
  (List.range (hay.length + 1)).any (fun i => needle.data.isPrefixOf (hay.data.drop i))

/-- Models `pathlib.PurePosixPath(p).is_absolute()`. -/
def isAbsolutePath (p : String) : Bool := p.data.headD ' ' == '/'

/-- Models `(pathlib.Path(work_root) / pathlib.Path(name)).resolve()` for
symlink-free, already-normalized POSIX paths: an absolute `name` stands alone,
a relative one is joined under `work_root`. -/
def resolvePath (work_root name : String) : String :=
  if isAbsolutePath name then name else work_root ++ "/" ++ name

/-- Models `pathlib.Path(p).name`: the component after the last slash. -/
def baseName (p : String) : String :=
  String.mk ((p.data.reverse.takeWhile (fun c => c ≠ '/')).reverse)

/-- Models `pathlib.Path(p).parent` (as a string, no trailing slash). -/
def parentDir (p : String) : String :=
  String.mk (((p.data.reverse.dropWhile (fun c => c ≠ '/')).drop 1).reverse)

/-- One entry of a FileSet, as produced by `_get_fileset_files`: a path, a
declared file type tag, and an optional logical library name (empty = unset). -/
structure SourceFile where
  name : String
  file_type : String
  logical_name : String
deriving DecidableEq, Repr

namespace Vivado

/-- Embeds `_vhdl_source` from `Vivado.src_file_filter`
(src/edalize/vivado.py lines 137-143). -/
def vhdlSourceCmd (f : SourceFile) : String :=
  let s := "read_vhdl"
  let s := if f.file_type = "vhdlSource-2008" then s ++ " -vhdl2008" else s
  if f.logical_name = "" then s else s ++ " -library " ++ f.logical_name

/-- The Vivado dispatch table (`file_types` in `src_file_filter`, lines
145-156): base entries `xci`, `xdc`, `tclSource`, extended with the three
HDL-source entries only when the active flow is `vivado`. -/
def file_types (synth : String) (f : SourceFile) (t : String) : Option String :=
  if t = "xci" then some "read_ip"
  else if t = "xdc" then some "read_xdc"
  else if t = "tclSource" then some "source"
  else if synth = "vivado" then
    if t = "verilogSource" then some "read_verilog"
    else if t = "systemVerilogSource" then some "read_verilog -sv"
    else if t = "vhdlSource" then some (vhdlSourceCmd f)
    else none
  else none

/-- `ignore_types` in `src_file_filter` (lines 150, 158): `user` always;
`verilogSource` and `systemVerilogSource` additionally for any non-`vivado`
flow. -/
def ignore_types (synth : String) : List String :=
  if synth = "vivado" then ["user"] else ["user", "verilogSource", "systemVerilogSource"]

/-- The result of dispatching one file: the directive string (empty for
ignored/unknown) together with the warnings logged while dispatching. -/
structure FilterResult where
  directive : String
  warnings : List String
deriving DecidableEq, Repr

/-- Embeds `Vivado.src_file_filter` (lines 136-168): look the normalized tag
up in the dispatch table, otherwise check the ignore list, otherwise log a
warning naming the file and its type and yield an empty directive. -/
def src_file_filter (f : SourceFile) (synth : String) : FilterResult :=
  let t := normTag f.file_type
  match file_types synth f t with
  | some cmd => ⟨cmd ++ " " ++ f.name, []⟩
  | none =>
    if t ∈ ignore_types synth then ⟨"", []⟩
    else ⟨"", [f.name ++ " has unknown file type \x27" ++ f.file_type ++ "\x27"]⟩

/-- Embeds the collection loop of `configure_main` (lines 62-66): dispatch
every file in order and keep exactly the truthy (non-empty) directives. -/
def collectDirectives : List SourceFile → String → List String
  | [], _ => []
  | f :: fs, synth =>
    let d := (src_file_filter f synth).directive
    if d = "" then collectDirectives fs synth else d :: collectDirectives fs synth

/-- Whether a file's normalized type tag is in the active dispatch table and
not in the active ignore list. -/
def recognizedNotIgnored (f : SourceFile) (synth : String) : Bool :=
  (file_types synth f (normTag f.file_type)).isSome
    && !(decide (normTag f.file_type ∈ ignore_types synth))

/-- The Vivado tool-option schema (`tool_options`, line 46, plus the
`yosys_synth_options` list read at line 127): `synth` and `part` members,
absent = unset. -/
structure VivadoToolOptions where
  part : Option String
  synth : Option String
  yosys_synth_options : List String
deriving DecidableEq, Repr

/-- All inputs of `Vivado.configure_main`: manifest (file list and include
directories, as returned by `_get_fileset_files`), tool options, backend
identity, and the `vlogparam`/`vlogdefine` maps whose values are embedded
already rendered by `_param_value_str` (a string-formatting helper of the
base class). -/
structure VivadoConfig where
  name : String
  toplevel : String
  src_files : List SourceFile
  incdirs : List String
  tool_options : VivadoToolOptions
  vlogparam : List (String × String)
  vlogdefine : List (String × String)
deriving DecidableEq, Repr

/-- The rendering context handed to `vivado-project.tcl.j2`
(`template_vars`, lines 79-89). -/
structure VivadoTemplateVars where
  name : String
  src_files : List String
  incdirs : List String
  tool_options : VivadoToolOptions
  toplevel : String
  vlogparam : List (String × String)
  vlogdefine : List (String × String)
  has_vhdl2008 : Bool
  has_xci : Bool
deriving DecidableEq, Repr

/-- `MAKEFILE_TEMPLATE.format(name, edif)` (lines 30-45, 97). -/
def makefileContent (name edif : String) : String :=
  "NAME := " ++ name ++ "\n\nall: $(NAME).bit\n\n$(NAME).bit:  $(NAME)_run.tcl $(NAME).xpr\n\tvivado -mode batch -source $^\n\n$(NAME).xpr: $(NAME).tcl" ++ edif ++ "\n\tvivado -mode batch -source $<\n\n%.edif: %.ys\n\tyosys -q -s $?\n\nbuild-gui: $(NAME).xpr\n\tvivado $<\n"

/-- Embeds `_write_yosys_file` (lines 102-134): the content of `<name>.ys`.
`vlogdefine`/`vlogparam` values arrive already rendered. -/
def yosysFileContent (cfg : VivadoConfig) : String :=
  let s := String.join (cfg.vlogdefine.map
    (fun kv => "verilog_defines -D" ++ kv.1 ++ "=" ++ kv.2 ++ "\n"))
  let s := s ++ "verilog_defaults -push\nverilog_defaults -add -defer\n"
  let s := s ++ (if cfg.incdirs = [] then "" else
    "verilog_defaults -add " ++
      String.intercalate " " (cfg.incdirs.map (fun d => "-I" ++ d)) ++ "\n")
  let s := s ++ String.join (cfg.src_files.map
    (fun f => if f.file_type = "verilogSource" then "read_verilog " ++ f.name ++ "\n" else ""))
  let s := s ++ String.join (cfg.vlogparam.map
    (fun kv => "chparam -set " ++ kv.1 ++ " " ++ kv.2 ++ " $abstract\\" ++ cfg.toplevel ++ "\n"))
  let s := s ++ "verilog_defaults -pop\n"
  let s := s ++ "synth_xilinx" ++
    String.join (cfg.tool_options.yosys_synth_options.map (fun o => " " ++ o))
  let s := s ++ " -edif " ++ cfg.toplevel ++ ".edif"
  let s := s ++ (if cfg.toplevel = "" then "" else " -top " ++ cfg.toplevel)
  s ++ "\n" ++ "write_json " ++ cfg.name ++ ".json\n"

/-- Everything `Vivado.configure_main` produces: the project-TCL rendering
context, the Makefile text, the warnings logged during dispatch, and (for the
yosys flow only) the content of the generated `.ys` script.  The second
rendered file `<name>_run.tcl` comes from a constant template with no
context, so it carries no data here. -/
structure VivadoOutput where
  template_vars : VivadoTemplateVars
  makefile : String
  warnings : List String
  ys_file : Option String
deriving DecidableEq, Repr

/-- Embeds `Vivado.configure_main` (lines 57-100). -/
def configure_main (cfg : VivadoConfig) : VivadoOutput :=
  let synth := cfg.tool_options.synth.getD "vivado"
  let base := collectDirectives cfg.src_files synth
  let warnings := (cfg.src_files.map (fun f => (src_file_filter f synth).warnings)).flatten
  let edif := if synth = "yosys" then " $(NAME).edif" else ""
  let vivado_files := if synth = "yosys" then
    base ++ ["read_edif " ++ cfg.toplevel ++ ".edif",
             "set_property design_mode GateLvl [current_fileset]"]
    else base
  let has_vhdl2008 := cfg.src_files.any (fun x => x.file_type = "vhdlSource-2008")
  let has_xci := cfg.src_files.any (fun x => x.file_type = "xci")
  { template_vars :=
      { name := cfg.name
        src_files := vivado_files
        incdirs := cfg.incdirs
        tool_options := cfg.tool_options
        toplevel := cfg.toplevel
        vlogparam := cfg.vlogparam
        vlogdefine := cfg.vlogdefine
        has_vhdl2008 := has_vhdl2008
        has_xci := has_xci }
    makefile := makefileContent cfg.name edif
    warnings := warnings
    ys_file := if synth = "yosys" then some (yosysFileContent cfg) else none }

end Vivado

namespace Vunit

/-- One entry of the VUnit backend's raw `self.files` list: a dict with
`name` and `logical_name` keys. -/
structure VFile where
  name : String
  logical_name : String
deriving DecidableEq, Repr

/-- The body of the library-defaulting loop for one file
(`configure_main`, lines 42-43): an empty `logical_name` becomes
`default_lib`. -/
def assignLib (f : VFile) : VFile :=
  if f.logical_name = "" then { f with logical_name := "default_lib" } else f

/-- Embeds the library-collection loop (`configure_main`, lines 40-45):
starting from the accumulator `libs`, default each file's library and append
each library name not yet present.  Returns the final library list and the
updated files. -/
def libLoop : List String → List VFile → List String × List VFile
  | libs, [] => (libs, [])
  | libs, f :: fs =>
    let f1 := assignLib f
    let libs1 := if f1.logical_name ∈ libs then libs else libs ++ [f1.logical_name]
    let r := libLoop libs1 fs
    (r.1, f1 :: r.2)

/-- The VUnit tool-option schema (`tool_options`, lines 11-14): two optional
fragment members and the `vuargs` list. -/
structure VunitToolOptions where
  pre_flow_fragment : Option String
  post_flow_fragment : Option String
  vuargs : List String
deriving DecidableEq, Repr

/-- Inputs of `Vunit.configure_main`: the work root, the raw file list (also
standing for the `_get_fileset_files` result, whose entries carry the same
`name`/`logical_name` data), and the tool options. -/
structure VunitConfig where
  work_root : String
  files : List VFile
  tool_options : VunitToolOptions
deriving DecidableEq, Repr

/-- Embeds `check_for_optional_files` (lines 47-64) for one declared option:
find the first file whose name contains the option's value; on success return
the rewritten option value (the bare file name of the resolved path) and the
newly registered loader root (its parent directory); otherwise the exception
message of line 64. -/
def check_for_optional_files (work_root : String) (files : List VFile)
    (opt optVal : String) : Except String (String × String) :=
  match files.find? (fun f => strContains f.name optVal) with
  | some f =>
    let abspath := resolvePath work_root f.name
    .ok (baseName abspath, parentDir abspath)
  | none => .error (opt ++ " file not found in target filesets")

/-- One iteration of the fragment-check loop (lines 67-69): a declared option
is checked, an absent one is skipped. -/
def fragmentStep (work_root : String) (files : List VFile) (opt : String) :
    Option String → Except String (Option String × List String)
  | none => .ok (none, [])
  | some v =>
    match check_for_optional_files work_root files opt v with
    | .ok r => .ok (some r.1, [r.2])
    | .error e => .error e

/-- What `Vunit.configure_main` hands to the `run.py.j2` template on success
(lines 72-82), together with the loader roots registered along the way. -/
structure VunitOutput where
  src_files : List VFile
  libraries : List String
  tool_options : VunitToolOptions
  loader_roots : List String
deriving DecidableEq, Repr

/-- Embeds `Vunit.configure_main` (lines 35-82): default the libraries, then
check each declared flow fragment (raising aborts before anything is
rendered), then assemble the template context for `run.py`. -/
def configure_main (cfg : VunitConfig) : Except String VunitOutput :=
  let r := libLoop ["default_lib"] cfg.files
  match fragmentStep cfg.work_root r.2 "pre_flow_fragment"
      cfg.tool_options.pre_flow_fragment with
  | .error e => .error e
  | .ok pre =>
    match fragmentStep cfg.work_root r.2 "post_flow_fragment"
        cfg.tool_options.post_flow_fragment with
    | .error e => .error e
    | .ok post =>
      .ok { src_files := r.2
            libraries := r.1
            tool_options := { cfg.tool_options with
                              pre_flow_fragment := pre.1
                              post_flow_fragment := post.1 }
            loader_roots := pre.2 ++ post.2 }

/-- The files `Vunit.configure_main` writes into the work root: `run.py` when
it completes, nothing when it raises. -/
def writtenFiles (cfg : VunitConfig) : List String :=
  match configure_main cfg with
  | .ok _ => ["run.py"]
  | .error _ => []

end Vunit

namespace Alintpro

/-- Inputs of `Alintpro.configure_main`: backend identity, the
`_get_fileset_files` result, the `gui` flag (absent = unset) and the initial
template-loader root chain of `self.jinja_env`. -/
structure AlintConfig where
  name : String
  toplevel : String
  work_root : String
  src_files : List SourceFile
  gui : Option Bool
  jinja_roots : List String
deriving DecidableEq, Repr

/-- Embeds the waiver loop of `Alintpro.configure_main` (lines 47-58) on the
pre-computed waiver list: resolve each waiver file, register its parent
directory as a loader root, and rewrite its name to the bare file name.
Returns the rewritten waiver files and the extended root chain. -/
def waiverLoop (work_root : String) : List SourceFile → List String → List SourceFile × List String
  | [], roots => ([], roots)
  | f :: fs, roots =>
    let abspath := resolvePath work_root f.name
    let r := waiverLoop work_root fs (roots ++ [parentDir abspath])
    ({ f with name := baseName abspath } :: r.1, r.2)

/-- What `Alintpro.configure_main` hands to the `alintpro.do.j2` template
(lines 60-66), together with the final loader root chain. -/
structure AlintOutput where
  name : String
  toplevel : String
  tool_gui : Option Bool
  src_files : List SourceFile
  waiver_files : List SourceFile
  loader_roots : List String
deriving DecidableEq, Repr

/-- Models Python `s.replace('.', '_')` (line 61). -/
def dotToUnderscore (s : String) : String :=
  String.mk (s.data.map (fun c => if c = '.' then '_' else c))

/-- Embeds `Alintpro.configure_main` (lines 34-70).  The `src_files.remove(f)`
calls remove each waiver-file object from the main list (object identity: the
`File` records handed out by `_get_fileset_files` are distinct objects), so
the surviving main list is exactly the non-waiver files in order, with their
names untouched. -/
def configure_main (cfg : AlintConfig) : AlintOutput :=
  let roots0 := cfg.jinja_roots ++ [parentDir cfg.work_root ++ "/src"]
  let w := waiverLoop cfg.work_root
    (cfg.src_files.filter (fun f => f.file_type = "waiver")) roots0
  { name := dotToUnderscore cfg.name
    toplevel := cfg.toplevel
    tool_gui := cfg.gui
    src_files := cfg.src_files.filter (fun f => f.file_type ≠ "waiver")
    waiver_files := w.1
    loader_roots := w.2 }

/-- Embeds `Alintpro.run_main` (lines 75-88): Python's
`self.tool_options.get('gui', [])` is truthy exactly when the flag is present
and true; the result is the executable path and the argument vector handed to
`_run_tool`. -/
def run_main (gui : Option Bool) : String × List String :=
  let guiTruthy := match gui with
    | some b => b
    | none => false
  let cmd := "C:/Aldec/ALINT-PRO-2018.07-SU1/bin/"
  if guiTruthy then
    (cmd ++ "alint.exe", [] ++ ["-do", "alintpro.do"])
  else
    (cmd ++ "alintcon.exe", ([] ++ ["-batch"]) ++ ["-do", "alintpro.do"])

end Alintpro

/-- The spec's unknown-file-type example: a FileSet holding only
`{name: "x.foo", file_type: "unknown_type"}`, default tool options. -/
def unknownTypeExample : Vivado.VivadoConfig :=
  { name := "proj"
    toplevel := "top"
    src_files := [⟨"x.foo", "unknown_type", ""⟩]
    incdirs := []
    tool_options := ⟨none, none, []⟩
    vlogparam := []
    vlogdefine := [] }

/-- A Vivado configuration with the alternate `yosys` synthesis flow and a
mixed FileSet. -/
def yosysFlowExample : Vivado.VivadoConfig :=
  { name := "proj"
    toplevel := "top"
    src_files := [⟨"a.v", "verilogSource", ""⟩, ⟨"c.xdc", "xdc", ""⟩,
                  ⟨"b.sv", "systemVerilogSource", ""⟩]
    incdirs := []
    tool_options := ⟨none, some "yosys", []⟩
    vlogparam := []
    vlogdefine := [] }

/-- A VUnit configuration declaring a `pre_flow_fragment` that matches no
file in the build's file list. -/
def missingFragmentExample : Vunit.VunitConfig :=
  { work_root := "/work/root"
    files := [⟨"rtl/a.vhd", ""⟩, ⟨"tb/tb_a.vhd", "tb_lib"⟩]
    tool_options := ⟨some "missing.py", none, []⟩ }

/-- A VUnit configuration without fragments whose configure run succeeds. -/
def vunitPlainExample : Vunit.VunitConfig :=
  { work_root := "/work/root"
    files := [⟨"tb/tb_a.vhd", "tb_lib"⟩, ⟨"rtl/a.vhd", ""⟩]
    tool_options := ⟨none, none, []⟩ }

/-- The configure result of `vunitPlainExample`. -/
def vunitPlainOutput : Vunit.VunitOutput :=
  { src_files := [⟨"tb/tb_a.vhd", "tb_lib"⟩, ⟨"rtl/a.vhd", "default_lib"⟩]
    libraries := ["default_lib", "tb_lib"]
    tool_options := ⟨none, none, []⟩
    loader_roots := [] }

/-- An ALINT-PRO configuration with one waiver file among ordinary sources. -/
def alintExample : Alintpro.AlintConfig :=
  { name := "my.design"
    toplevel := "top"
    work_root := "/work/root"
    src_files := [⟨"rtl/a.vhd", "vhdlSource", ""⟩, ⟨"waivers/w.do", "waiver", ""⟩]
    gui := none
    jinja_roots := ["/templates"] }

end Edalize

namespace Edalize.Vivado

theorem table_disjoint_ignore (synth : String) (f : SourceFile) (t : String)
    (h : (file_types synth f t).isSome) : t ∉ ignore_types synth := by
  unfold file_types ignore_types at *
  split_ifs at h ⊢ <;> simp_all

theorem cmd_directive_ne_empty (a b : String) : a ++ " " ++ b ≠ "" := by
  intro h
  have h2 := congrArg String.length h
  simp [String.length_append] at h2
  exact absurd h2.1.2 (by decide)

theorem directive_ne_empty_iff (f : SourceFile) (synth : String) :
    ((src_file_filter f synth).directive ≠ "") ↔ recognizedNotIgnored f synth = true := by
  unfold src_file_filter recognizedNotIgnored
  cases hft : file_types synth f (normTag f.file_type) with
  | some cmd =>
    simp only [hft]
    constructor
    · intro _
      have hni := table_disjoint_ignore synth f (normTag f.file_type) (by simp [hft])
      simp [hni]
    · intro _
      exact cmd_directive_ne_empty cmd f.name
  | none =>
    simp only [hft]
    split_ifs <;> simp_all

theorem collectDirectives_eq_filter_map (src_files : List SourceFile) (synth : String) :
    collectDirectives src_files synth =
      (src_files.filter (fun f => recognizedNotIgnored f synth)).map
        (fun f => (src_file_filter f synth).directive) := by
  induction src_files with
  | nil => rfl
  | cons f fs ih =>
    by_cases hd : (src_file_filter f synth).directive = ""
    · have hr : recognizedNotIgnored f synth = false := by
        have := (directive_ne_empty_iff f synth).not
        simp only [not_not] at this
        simpa using this.mp hd
      simp [collectDirectives, hd, List.filter_cons, hr, ih]
    · have hr : recognizedNotIgnored f synth = true :=
        (directive_ne_empty_iff f synth).mp hd
      simp [collectDirectives, hd, List.filter_cons, hr, ih]

/-- Claim C1: for every FileSet dispatched by the Vivado backend's configure
phase, the non-empty directives collected into the rendering context are
exactly the dispatch results of the files whose type is recognized and not
ignored under the active flow, in FileSet declaration order; in particular
their number equals the number of such files. -/
theorem claim_C1_directive_count_and_order (src_files : List SourceFile) (synth : String) :
    collectDirectives src_files synth =
      (src_files.filter (fun f => recognizedNotIgnored f synth)).map
        (fun f => (src_file_filter f synth).directive)
    ∧ (collectDirectives src_files synth).length =
      (src_files.filter (fun f => recognizedNotIgnored f synth)).length := by
  refine ⟨collectDirectives_eq_filter_map src_files synth, ?_⟩
  rw [collectDirectives_eq_filter_map src_files synth, List.length_map]

/-- Claim C2: a file whose normalized type tag is neither in the dispatch
table nor in the ignore list yields an empty directive and exactly one
warning naming the file and its type; the configure phase still completes,
as on the spec's example FileSet `[{name: x.foo, file_type: unknown_type}]`,
where zero directives are generated and one warning is recorded. -/
theorem claim_C2_unknown_type_soft_failure (f : SourceFile) (synth : String)
    (h1 : file_types synth f (normTag f.file_type) = none)
    (h2 : normTag f.file_type ∉ ignore_types synth) :
    src_file_filter f synth =
      ⟨"", [f.name ++ " has unknown file type \x27" ++ f.file_type ++ "\x27"]⟩
    ∧ (configure_main Edalize.unknownTypeExample).template_vars.src_files = []
    ∧ (configure_main Edalize.unknownTypeExample).warnings =
        ["x.foo has unknown file type \x27unknown_type\x27"] := by
  refine ⟨?_, by decide, by decide⟩
  unfold src_file_filter
  simp only [h1]
  rw [if_neg h2]

theorem claim_C2_witness :
    file_types "vivado" ⟨"x.foo", "unknown_type", ""⟩ (normTag "unknown_type") = none
    ∧ src_file_filter ⟨"x.foo", "unknown_type", ""⟩ "vivado" =
        ⟨"", ["x.foo has unknown file type \x27unknown_type\x27"]⟩ :=
  ⟨by decide,
   (claim_C2_unknown_type_soft_failure ⟨"x.foo", "unknown_type", ""⟩ "vivado"
      (by decide) (by decide)).1⟩

theorem directive_of_hit (f : SourceFile) (synth cmd : String)
    (h : file_types synth f (normTag f.file_type) = some cmd) :
    (src_file_filter f synth).directive = cmd ++ " " ++ f.name := by
  unfold src_file_filter
  simp [h]

theorem yosys_hit_shape (f : SourceFile) (cmd : String)
    (h : file_types "yosys" f (normTag f.file_type) = some cmd) :
    cmd = "read_ip" ∨ cmd = "read_xdc" ∨ cmd = "source" := by
  unfold file_types at h
  split_ifs at h <;> simp_all

theorem setprop_ne_read_edif (t : String) :
    "set_property design_mode GateLvl [current_fileset]" ≠ "read_edif " ++ t ++ ".edif" := by
  intro h
  have h2 := congrArg String.data h
  simp [String.data_append] at h2

theorem read_edif_notin_collect (src_files : List SourceFile) (top : String) :
    ("read_edif " ++ top ++ ".edif") ∉ collectDirectives src_files "yosys" := by
  intro hmem
  rw [collectDirectives_eq_filter_map] at hmem
  obtain ⟨f, hf, heq⟩ := List.mem_map.mp hmem
  have hrec : recognizedNotIgnored f "yosys" = true := (List.mem_filter.mp hf).2
  unfold recognizedNotIgnored at hrec
  have hsome : (file_types "yosys" f (normTag f.file_type)).isSome := by
    cases hft : file_types "yosys" f (normTag f.file_type) <;> simp_all
  obtain ⟨cmd, hcmd⟩ := Option.isSome_iff_exists.mp hsome
  rw [directive_of_hit f "yosys" cmd hcmd] at heq
  rcases yosys_hit_shape f cmd hcmd with h1 | h1 | h1 <;> subst h1 <;>
    (have h2 := congrArg String.data heq; simp [String.data_append] at h2)

/-- Claim C3: under the alternate `yosys` flow, `verilogSource` and
`systemVerilogSource` files yield empty directives (unlike under the default
`vivado` flow), and the rendering context's directive list is the collected
per-file directives followed by two synthetic entries, exactly one of which
is the `read_edif` read-intermediate-artifact directive — a directive that is
never produced for any input SourceFile. -/
theorem claim_C3_flow_substitution (cfg : VivadoConfig)
    (hsynth : cfg.tool_options.synth = some "yosys") :
    (∀ n l, (src_file_filter ⟨n, "verilogSource", l⟩ "yosys").directive = ""
        ∧ (src_file_filter ⟨n, "systemVerilogSource", l⟩ "yosys").directive = ""
        ∧ (src_file_filter ⟨n, "verilogSource", l⟩ "vivado").directive =
            "read_verilog" ++ " " ++ n)
    ∧ (configure_main cfg).template_vars.src_files =
        collectDirectives cfg.src_files "yosys"
          ++ ["read_edif " ++ cfg.toplevel ++ ".edif",
              "set_property design_mode GateLvl [current_fileset]"]
    ∧ (configure_main cfg).template_vars.src_files.count
        ("read_edif " ++ cfg.toplevel ++ ".edif") = 1 := by
  have hv : ∀ n l, (src_file_filter ⟨n, "verilogSource", l⟩ "yosys").directive = ""
      ∧ (src_file_filter ⟨n, "systemVerilogSource", l⟩ "yosys").directive = ""
      ∧ (src_file_filter ⟨n, "verilogSource", l⟩ "vivado").directive =
          "read_verilog" ++ " " ++ n := by
    intro n l
    have h1 : normTag "verilogSource" = "verilogSource" := rfl
    have h2 : normTag "systemVerilogSource" = "systemVerilogSource" := rfl
    refine ⟨?_, ?_, ?_⟩ <;>
      simp [src_file_filter, h1, h2, file_types, ignore_types]
  have hlist : (configure_main cfg).template_vars.src_files =
      collectDirectives cfg.src_files "yosys"
        ++ ["read_edif " ++ cfg.toplevel ++ ".edif",
            "set_property design_mode GateLvl [current_fileset]"] := by
    simp [configure_main, hsynth]
  refine ⟨hv, hlist, ?_⟩
  rw [hlist, List.count_append]
  rw [List.count_eq_zero.mpr (read_edif_notin_collect cfg.src_files cfg.toplevel)]
  simp [List.count_cons, setprop_ne_read_edif cfg.toplevel]

theorem claim_C3_witness :
    Edalize.yosysFlowExample.tool_options.synth = some "yosys"
    ∧ (configure_main Edalize.yosysFlowExample).template_vars.src_files.count
        ("read_edif " ++ Edalize.yosysFlowExample.toplevel ++ ".edif") = 1 :=
  ⟨rfl, (claim_C3_flow_substitution Edalize.yosysFlowExample rfl).2.2⟩

/-- Claim C6: a file whose normalized type tag is in the dispatch table gets
the directive `<command> <file.name>`; `vhdlSource-2008` appends the
2008-revision flag to `read_vhdl`, and a non-empty `logical_name` appends a
`-library <logical_name>` qualifier. -/
theorem claim_C6_table_hit_directive :
    (∀ (f : SourceFile) (synth cmd : String),
      file_types synth f (normTag f.file_type) = some cmd →
        src_file_filter f synth = ⟨cmd ++ " " ++ f.name, []⟩)
    ∧ (∀ n l, (src_file_filter ⟨n, "vhdlSource-2008", l⟩ "vivado").directive =
        ("read_vhdl -vhdl2008" ++ (if l = "" then "" else " -library " ++ l)) ++ " " ++ n)
    ∧ (∀ n l, l ≠ "" → (src_file_filter ⟨n, "vhdlSource", l⟩ "vivado").directive =
        ("read_vhdl" ++ " -library " ++ l) ++ " " ++ n) := by
  refine ⟨?_, ?_, ?_⟩
  · intro f synth cmd h
    unfold src_file_filter
    simp only [h]
  · intro n l
    have ht : normTag "vhdlSource-2008" = "vhdlSource" := rfl
    simp only [src_file_filter, ht, file_types, vhdlSourceCmd]
    by_cases hl : l = ""
    · simp [hl]
    · simp [hl]
      apply String.ext
      simp [String.data_append]
  · intro n l hl
    have ht : normTag "vhdlSource" = "vhdlSource" := rfl
    simp only [src_file_filter, ht, file_types, vhdlSourceCmd]
    simp [hl]

theorem claim_C6_witness :
    file_types "vivado" ⟨"a.v", "verilogSource", ""⟩ (normTag "verilogSource") =
      some "read_verilog"
    ∧ src_file_filter ⟨"a.v", "verilogSource", ""⟩ "vivado" = ⟨"read_verilog a.v", []⟩
    ∧ (src_file_filter ⟨"b.vhd", "vhdlSource", "mylib"⟩ "vivado").directive =
        ("read_vhdl" ++ " -library " ++ "mylib") ++ " " ++ "b.vhd" :=
  ⟨by decide,
   claim_C6_table_hit_directive.1 ⟨"a.v", "verilogSource", ""⟩ "vivado" "read_verilog"
     (by decide),
   claim_C6_table_hit_directive.2.2 "b.vhd" "mylib" (by decide)⟩

end Edalize.Vivado

namespace Edalize.Vunit

theorem assignLib_name (f : VFile) : (assignLib f).name = f.name := by
  unfold assignLib
  split_ifs <;> rfl

theorem libLoop_snd (libs : List String) (files : List VFile) :
    (libLoop libs files).2 = files.map assignLib := by
  induction files generalizing libs with
  | nil => rfl
  | cons f fs ih => simp [libLoop, ih]

theorem libLoop_fst_head (files : List VFile) (libs : List String) (h : libs ≠ []) :
    ((libLoop libs files).1).head? = libs.head? := by
  induction files generalizing libs with
  | nil => rfl
  | cons f fs ih =>
    simp only [libLoop]
    split_ifs with hm
    · exact ih libs h
    · cases libs with
      | nil => exact absurd rfl h
      | cons a as =>
        rw [ih ((a :: as) ++ [(assignLib f).logical_name]) (by simp)]
        rfl

theorem fragmentStep_none (wr : String) (files : List VFile) (opt : String) :
    fragmentStep wr files opt none = .ok (none, []) := rfl

theorem fragmentStep_error (wr : String) (files : List VFile) (opt v : String)
    (h : ∀ f ∈ files, strContains f.name v = false) :
    fragmentStep wr (files.map assignLib) opt (some v) =
      .error (opt ++ " file not found in target filesets") := by
  have hfind : (files.map assignLib).find? (fun f => strContains f.name v) = none := by
    rw [List.find?_eq_none]
    intro x hx
    obtain ⟨g, hg, hgx⟩ := List.mem_map.mp hx
    subst hgx
    rw [assignLib_name]
    simp [h g hg]
  simp [fragmentStep, check_for_optional_files, hfind]

/-- Claim C4: a declared `pre_flow_fragment` (or `post_flow_fragment`) whose
value is contained in no file name makes `configure_main` raise an error
naming the missing option, and no `run.py` is written. -/
theorem claim_C4_missing_fragment_aborts (cfg : VunitConfig) (v : String) :
    (cfg.tool_options.pre_flow_fragment = some v →
      (∀ f ∈ cfg.files, strContains f.name v = false) →
      configure_main cfg = .error "pre_flow_fragment file not found in target filesets"
        ∧ writtenFiles cfg = [])
    ∧ (cfg.tool_options.pre_flow_fragment = none →
       cfg.tool_options.post_flow_fragment = some v →
      (∀ f ∈ cfg.files, strContains f.name v = false) →
      configure_main cfg = .error "post_flow_fragment file not found in target filesets"
        ∧ writtenFiles cfg = []) := by
  constructor
  · intro hpre hnone
    have herr : configure_main cfg =
        .error "pre_flow_fragment file not found in target filesets" := by
      simp only [configure_main, libLoop_snd, hpre,
        fragmentStep_error cfg.work_root cfg.files "pre_flow_fragment" v hnone]
      rfl
    exact ⟨herr, by simp [writtenFiles, herr]⟩
  · intro hpre hpost hnone
    have herr : configure_main cfg =
        .error "post_flow_fragment file not found in target filesets" := by
      simp only [configure_main, libLoop_snd, hpre, hpost, fragmentStep_none,
        fragmentStep_error cfg.work_root cfg.files "post_flow_fragment" v hnone]
      rfl
    exact ⟨herr, by simp [writtenFiles, herr]⟩

theorem claim_C4_witness :
    configure_main Edalize.missingFragmentExample =
      .error "pre_flow_fragment file not found in target filesets"
    ∧ writtenFiles Edalize.missingFragmentExample = [] :=
  (claim_C4_missing_fragment_aborts Edalize.missingFragmentExample "missing.py").1
    rfl (by decide)

/-- Claim C5: every file with an empty `logical_name` is compiled into
`default_lib`, and `default_lib` is always the first entry of the libraries
list handed to the template, for every input file order. -/
theorem claim_C5_default_lib (cfg : VunitConfig) (out : VunitOutput)
    (h : configure_main cfg = .ok out) :
    out.libraries.head? = some "default_lib"
    ∧ out.src_files = cfg.files.map assignLib
    ∧ ∀ f : VFile, f.logical_name = "" → (assignLib f).logical_name = "default_lib" := by
  simp only [configure_main] at h
  split at h
  · exact absurd h (by simp)
  · split at h
    · exact absurd h (by simp)
    · simp only [Except.ok.injEq] at h
      subst h
      refine ⟨?_, libLoop_snd ["default_lib"] cfg.files, ?_⟩
      · rw [libLoop_fst_head cfg.files ["default_lib"] (by simp)]
        rfl
      · intro f hf
        simp [assignLib, hf]

theorem claim_C5_witness :
    Edalize.vunitPlainOutput.libraries.head? = some "default_lib"
    ∧ Edalize.vunitPlainOutput.src_files =
        Edalize.vunitPlainExample.files.map assignLib :=
  ⟨(claim_C5_default_lib Edalize.vunitPlainExample Edalize.vunitPlainOutput rfl).1,
   (claim_C5_default_lib Edalize.vunitPlainExample Edalize.vunitPlainOutput rfl).2.1⟩

end Edalize.Vunit

namespace Edalize.Alintpro

theorem waiverLoop_spec (wr : String) (ws : List SourceFile) (roots : List String) :
    (waiverLoop wr ws roots).1 =
      ws.map (fun f => { f with name := baseName (resolvePath wr f.name) })
    ∧ (waiverLoop wr ws roots).2 =
      roots ++ ws.map (fun f => parentDir (resolvePath wr f.name)) := by
  induction ws generalizing roots with
  | nil => simp [waiverLoop]
  | cons f fs ih =>
    have h := ih (roots ++ [parentDir (resolvePath wr f.name)])
    simp [waiverLoop, h.1, h.2]

/-- Claim C7: configure resolves every `waiver`-typed file to an absolute
path, appends its containing directory to the template lookup roots (after
the initial roots and the `../src` root), rewrites its name to the bare file
name, and removes it from the main `src_files` list; all non-waiver files
stay in `src_files` untouched and in order. -/
theorem claim_C7_waiver_reclassification (cfg : AlintConfig) :
    (configure_main cfg).src_files =
        cfg.src_files.filter (fun f => f.file_type ≠ "waiver")
    ∧ (configure_main cfg).waiver_files =
        (cfg.src_files.filter (fun f => f.file_type = "waiver")).map
          (fun f => { f with name := baseName (resolvePath cfg.work_root f.name) })
    ∧ (configure_main cfg).loader_roots =
        (cfg.jinja_roots ++ [parentDir cfg.work_root ++ "/src"])
          ++ (cfg.src_files.filter (fun f => f.file_type = "waiver")).map
              (fun f => parentDir (resolvePath cfg.work_root f.name)) := by
  refine ⟨rfl, ?_, ?_⟩
  · exact (waiverLoop_spec cfg.work_root
      (cfg.src_files.filter (fun f => f.file_type = "waiver"))
      (cfg.jinja_roots ++ [parentDir cfg.work_root ++ "/src"])).1
  · exact (waiverLoop_spec cfg.work_root
      (cfg.src_files.filter (fun f => f.file_type = "waiver"))
      (cfg.jinja_roots ++ [parentDir cfg.work_root ++ "/src"])).2

/-- Claim C8: with the `gui` flag false the batch executable `alintcon.exe`
is chosen and `-batch` is appended to the argument vector; with `gui` true
the interactive executable `alint.exe` is chosen and no `-batch` argument
appears. -/
theorem claim_C8_gui_mode_selection :
    run_main (some false) =
      ("C:/Aldec/ALINT-PRO-2018.07-SU1/bin/alintcon.exe", ["-batch", "-do", "alintpro.do"])
    ∧ run_main (some true) =
      ("C:/Aldec/ALINT-PRO-2018.07-SU1/bin/alint.exe", ["-do", "alintpro.do"])
    ∧ "-batch" ∉ (run_main (some true)).2 := by
  decide

/-- Claim C10: an absent `gui` flag behaves exactly like `gui = false`: the
batch executable is selected and `-batch` is appended. -/
theorem claim_C10_gui_unset_is_batch :
    run_main none = run_main (some false)
    ∧ run_main none =
      ("C:/Aldec/ALINT-PRO-2018.07-SU1/bin/alintcon.exe", ["-batch", "-do", "alintpro.do"]) := by
  decide

end Edalize.Alintpro

namespace Edalize

/-- Claim C9: each backend's configure phase is a deterministic function of
the manifest, the tool options and the backend identity, so two runs on
identical inputs produce identical generated artifacts (rendering contexts,
Makefile text, yosys script, library lists, loader roots) byte for byte. -/
theorem claim_C9_configure_deterministic
    (v1 v2 : Vivado.VivadoConfig) (u1 u2 : Vunit.VunitConfig)
    (a1 a2 : Alintpro.AlintConfig)
    (hv : v1 = v2) (hu : u1 = u2) (ha : a1 = a2) :
    Vivado.configure_main v1 = Vivado.configure_main v2
    ∧ Vunit.configure_main u1 = Vunit.configure_main u2
    ∧ Alintpro.configure_main a1 = Alintpro.configure_main a2 := by
  subst hv
  subst hu
  subst ha
  exact ⟨rfl, rfl, rfl⟩

theorem claim_C9_witness :
    Vivado.configure_main unknownTypeExample = Vivado.configure_main unknownTypeExample
    ∧ Vunit.configure_main vunitPlainExample = Vunit.configure_main vunitPlainExample
    ∧ Alintpro.configure_main alintExample = Alintpro.configure_main alintExample :=
  claim_C9_configure_deterministic unknownTypeExample unknownTypeExample
    vunitPlainExample vunitPlainExample alintExample alintExample rfl rfl rfl

end Edalize
